import Mathlib

/-!
Shallow embedding of `src/shared/generator.c` (systemd generator helpers).

The file system visible to the generator is modelled as a flat association
list from paths to entries (regular files with their content, or symbolic
links with their destination).  Directories are left implicit: the only
directory operation the source performs is `mkdir_parents`, whose result the
source discards, and no claim observes directory entries.

External collaborators (the option filter, the device-node resolver, the
unit-name codec, the escaper, the duration parser, the `in_initrd` flag and
the success of deferred buffered writes) live outside this repository slice;
they are supplied through an explicit `Env` record, so every theorem is
stated for all behaviours of the collaborators that satisfy its hypotheses.
-/

namespace Generator

/-- Positive errno value for "file exists". -/
def EEXIST : Int := 17

/-- Positive errno value for "invalid argument". -/
def EINVAL : Int := 22

/-- Positive errno value for "out of memory". -/
def ENOMEM : Int := 12

/-- Positive errno value for "no space left on device" (the sample deferred
write failure used by the flush model). -/
def ENOSPC : Int := 28

/-- A directory entry: a regular file with its byte content, or a symbolic
link with its destination string. -/
inductive Entry where
  | file (content : String)
  | symlink (dest : String)
deriving DecidableEq, Repr

/-- The flat file-system state: an association list from absolute paths to
entries.  Earlier bindings shadow later ones. -/
abbrev FS := List (String × Entry)

/-- Look up the entry at a path. -/
def FS.lookup : FS → String → Option Entry
  | [], _ => none
  | hd :: tl, p => if hd.1 = p then some hd.2 else FS.lookup tl p

/-- Create a fresh binding (callers only use it on paths that are absent). -/
def FS.insertNew (fs : FS) (p : String) (e : Entry) : FS :=
  (p, e) :: fs

/-- Replace the entry at a path (used when a stream's buffered content is
flushed into an already-created file). -/
def FS.set : FS → String → Entry → FS
  | [], p, e => [(p, e)]
  | hd :: tl, p, e => if hd.1 = p then (p, e) :: tl else hd :: FS.set tl p e

/-- How many bindings a path has (used to state "exactly one link on disk"). -/
def FS.countPath : FS → String → Nat
  | [], _ => 0
  | hd :: tl, p => (if hd.1 = p then 1 else 0) + FS.countPath tl p

/-- Modelled from the spec: the `symlink(2)` call as the generator relies on
it — exclusive creation of a symbolic link that fails with `EEXIST` whenever
any entry already occupies the link path (its kind and destination are not
inspected). -/
def symlinkSys (fs : FS) (dest link : String) : FS × Int :=
  match fs.lookup link with
  | some _ => (fs, -EEXIST)
  | none => (fs.insertNew link (.symlink dest), 0)

/-- Modelled from the spec: `mkdir_parents` creates missing parent
directories; the source discards its result and no claim observes directory
entries, so the flat model leaves the state unchanged. -/
def mkdir_parents (fs : FS) (_path : String) : FS := fs

/-- Modelled from the spec: `path_is_absolute` from the external path helpers
— a path is absolute when its first character is a slash. -/
def path_is_absolute (s : String) : Bool :=
  match s.data with
  | [] => false
  | c :: _ => c = '/'

/-- Modelled from the spec: GNU `basename` as used on unit names — the part
of the string after the final slash (empty for a trailing slash). -/
def basename (s : String) : String :=
  ⟨s.data.foldl (fun acc c => if c = '/' then [] else acc ++ [c]) []⟩

/-- Modelled from the spec: path comparison used by the rule engine; the
external helper also identifies non-canonical spellings of the same path,
which the canonical mount points exercised by the claims never need. -/
def path_equal (a b : String) : Bool := a = b

/-- Modelled from the spec: `isempty` on a C string pointer — true for the
null pointer and for the empty string. -/
def isempty : Option String → Bool
  | none => true
  | some s => s.data.isEmpty

/-- Well-known unit name `local-fs.target` (special.h). -/
def SPECIAL_LOCAL_FS_TARGET : String := "local-fs.target"

/-- Well-known unit name `systemd-fsck-root.service` (special.h). -/
def SPECIAL_FSCK_ROOT_SERVICE : String := "systemd-fsck-root.service"

/-- Well-known unit name `systemd-remount-fs.service` (special.h). -/
def SPECIAL_REMOUNT_FS_SERVICE : String := "systemd-remount-fs.service"

/-- Well-known unit name `network-online.target` (special.h). -/
def SPECIAL_NETWORK_ONLINE_TARGET : String := "network-online.target"

/-- Well-known unit name `network.target` (special.h). -/
def SPECIAL_NETWORK_TARGET : String := "network.target"

/-- Well-known unit name `initrd-root-device.target` (special.h). -/
def SPECIAL_INITRD_ROOT_DEVICE_TARGET : String := "initrd-root-device.target"

/-- Build-time install path of the static unit directory. -/
def SYSTEM_DATA_UNIT_PATH : String := "/usr/lib/systemd/system"

/-- Build-time install path of the fsck helper binary. -/
def SYSTEMD_FSCK_PATH : String := "/usr/lib/systemd/systemd-fsck"

/-- Build-time install path of the makefs/mkswap helper binary. -/
def SYSTEMD_MAKEFS_PATH : String := "/usr/lib/systemd/systemd-makefs"

/-- Build-time install path of the growfs helper binary. -/
def SYSTEMD_GROWFS_PATH : String := "/usr/lib/systemd/systemd-growfs"

/-- The environment of external collaborators (spec section 1 lists them as
excluded): the process name, the device-node recogniser and resolver, the
fsck-probe, the early-boot flag, the unit-name codec, the option filter for
the device-timeout key, the duration parser, the two escapers, and a flag
that tells whether deferred buffered writes reach the disk (false injects a
disk-full failure at flush time).  Fallible collaborators return
`Except Int` carrying the negative errno the C function would return;
`fstab_node_to_udev_node` returns `none` exactly on allocation failure. -/
structure Env where
  progName : String
  is_device_path : String → Bool
  fsck_exists : String → Int
  in_initrd : Bool
  fstab_node_to_udev_node : String → Option String
  unit_name_from_path : String → String → Except Int String
  unit_name_from_path_instance : String → String → String → Except Int String
  fstab_filter_timeout : String → Except Int (Option String)
  parse_sec_fix_0 : String → Except Int Nat
  cescape : String → String
  specifier_escape : String → String
  flush_ok : Bool

/-- An open stdio stream: the path of the file it writes and the content
buffered so far.  The file's inode already exists (created by `fopen`);
the buffer reaches the entry only when flushed. -/
structure Handle where
  path : String
  buf : String
deriving DecidableEq, Repr

/-- Append text to a stream's buffer (`fprintf`). -/
def Handle.append (h : Handle) (s : String) : Handle := ⟨h.path, h.buf ++ s⟩

/-- Modelled from the spec: `fflush_and_check` flushes the buffered content
and reports any deferred write failure (e.g. disk full); on success the
buffered bytes replace the file's content. -/
def fflush_and_check (env : Env) (fs : FS) (h : Handle) : FS × Int :=
  if env.flush_ok then (fs.set h.path (.file h.buf), 0) else (fs, -ENOSPC)

/-- Modelled from the spec: `fclose` at scope exit — flushes the buffer but
discards any failure; on a failed flush the buffered content is lost and the
file keeps whatever was last committed. -/
def Handle.close (env : Env) (fs : FS) (h : Handle) : FS :=
  if env.flush_ok then fs.set h.path (.file h.buf) else fs

/-- The link path `dir/<dst>.<dep_type>/<basename src>` that
`generator_add_symlink` computes. -/
def linkPath (dir dst dep_type src : String) : String :=
  dir ++ "/" ++ dst ++ "." ++ dep_type ++ "/" ++ basename src

/-- Embedding of `generator_open_unit_file` (generator.c:25): open
`dest/name` with `fopen(..., "wxe")` — exclusive creation.  On `EEXIST` the
function logs (mentioning `source` when given) and returns `-EEXIST` in both
log branches; on success it writes the provenance header into the stream and
hands the stream to the caller. -/
def generator_open_unit_file (env : Env) (fs : FS) (dest : String)
    (source : Option String) (name : String) : FS × Except Int Handle :=
  let unit := dest ++ "/" ++ name
  match fs.lookup unit with
  | some _ => (fs, .error (-EEXIST))
  | none =>
      let fs1 := fs.insertNew unit (.file "")
      (fs1, .ok ⟨unit, "# Automatically generated by " ++ env.progName ++ "\n\n"⟩)

/-- Embedding of `generator_add_symlink` (generator.c:58): link
`dir/<dst>.<dep_type>/<basename src>` to `src` (if absolute) or `../src`;
`mkdir_parents_label`'s result is discarded, and a `symlink` failure is
only reported when its errno differs from `EEXIST`. -/
def generator_add_symlink (fs : FS) (dir dst dep_type src : String) : FS × Int :=
  let lfrom := if path_is_absolute src then src else "../" ++ src
  let lto := linkPath dir dst dep_type src
  let fs1 := mkdir_parents fs lto
  let fr := symlinkSys fs1 lfrom lto
  if fr.2 < 0 ∧ fr.2 ≠ -EEXIST then fr else (fr.1, 0)

/-- Body of the root fsck unit written by `write_fsck_sysroot_service`
(generator.c:100), with the format specifiers substituted. -/
def fsck_sysroot_unit_text (progName escaped device escaped2 : String) : String :=
  "# Automatically generated by " ++ progName ++ "\n\n" ++
  "[Unit]\n" ++
  "Description=File System Check on " ++ escaped ++ "\n" ++
  "Documentation=man:systemd-fsck-root.service(8)\n" ++
  "DefaultDependencies=no\n" ++
  "BindsTo=" ++ device ++ "\n" ++
  "Conflicts=shutdown.target\n" ++
  "After=initrd-root-device.target local-fs-pre.target " ++ device ++ "\n" ++
  "Before=shutdown.target\n" ++
  "\n" ++
  "[Service]\n" ++
  "Type=oneshot\n" ++
  "RemainAfterExit=yes\n" ++
  "ExecStart=" ++ SYSTEMD_FSCK_PATH ++ " " ++ escaped2 ++ "\n" ++
  "TimeoutSec=0\n"

/-- Embedding of `write_fsck_sysroot_service` (generator.c:75): escape the
device twice, derive its `.device` unit name, create
`dir/systemd-fsck-root.service` exclusively, write the unit text and
flush-and-check. -/
def write_fsck_sysroot_service (env : Env) (fs : FS) (dir what : String) : FS × Int :=
  let escaped := env.specifier_escape what
  let escaped2 := env.cescape escaped
  let unit := dir ++ "/" ++ SPECIAL_FSCK_ROOT_SERVICE
  match env.unit_name_from_path what ".device" with
  | .error r => (fs, r)
  | .ok device =>
    match fs.lookup unit with
    | some _ => (fs, -EEXIST)
    | none =>
      let fs1 := fs.insertNew unit (.file "")
      let h : Handle := ⟨unit, fsck_sysroot_unit_text env.progName escaped device escaped2⟩
      let fr := fflush_and_check env fs1 h
      if fr.2 < 0 then (fr.1, fr.2) else (fr.1, 0)

/-- The path of the root-check `wants` link that `generator_write_fsck_deps`
creates for the root mount point (generator.c:161). -/
def rootCheckLink (dir : String) : String :=
  dir ++ "/" ++ SPECIAL_LOCAL_FS_TARGET ++ ".wants/" ++ SPECIAL_FSCK_ROOT_SERVICE

/-- Embedding of `generator_write_fsck_deps` (generator.c:128).  Non-device
sources are skipped with a warning; a present filesystem type other than
`auto` is probed for a checker, and a definite "no checker" answer skips the
record; the root mount point gets the well-known root-check unit linked into
`local-fs.target.wants` (a raw `symlink` whose failure — any errno, `EEXIST`
included — is returned); `/sysroot` inside the initrd synthesises the root
fsck unit; every other mount point gets `Requires=`/`After=` lines on the
caller's open stream. -/
def generator_write_fsck_deps (env : Env) (fs : FS) (f : Handle)
    (dir what whr : String) (fstype : Option String) : FS × Handle × Int :=
  if ¬ env.is_device_path what then
    (fs, f, 0)
  else if (¬ isempty fstype ∧ fstype.getD "" ≠ "auto") ∧
          env.fsck_exists (fstype.getD "") = 0 then
    (fs, f, 0)
  else if path_equal whr "/" then
    let lnk := rootCheckLink dir
    let fs1 := mkdir_parents fs lnk
    let fr := symlinkSys fs1 (SYSTEM_DATA_UNIT_PATH ++ "/" ++ SPECIAL_FSCK_ROOT_SERVICE) lnk
    if fr.2 < 0 then (fr.1, f, fr.2) else (fr.1, f, 0)
  else if env.in_initrd ∧ path_equal whr "/sysroot" then
    let fr := write_fsck_sysroot_service env fs dir what
    if fr.2 < 0 then (fr.1, f, fr.2)
    else
      (fr.1,
       f.append ("Requires=" ++ SPECIAL_FSCK_ROOT_SERVICE ++ "\nAfter=" ++
                 SPECIAL_FSCK_ROOT_SERVICE ++ "\n"),
       0)
  else
    match env.unit_name_from_path_instance "systemd-fsck" what ".service" with
    | .error r => (fs, f, r)
    | .ok fsck =>
      (fs, f.append ("Requires=" ++ fsck ++ "\nAfter=" ++ fsck ++ "\n"), 0)

/-- The drop-in fragment path `dir/<unit>.d/<priority>-<label>.conf`
(spec section 4.3). -/
def dropInPath (dir unit : String) (priority : Nat) (label : String) : String :=
  dir ++ "/" ++ unit ++ ".d/" ++ toString priority ++ "-" ++ label ++ ".conf"

/-- Modelled from the spec: `write_drop_in_format` (dropin.h, outside this
repository slice) — computes `dir/<unit>.d/<priority>-<label>.conf`, creates
parents, creates the fragment exclusively with the same conflict semantics as
the unit-file writer, writes the formatted body and surfaces a deferred write
failure. -/
def write_drop_in_format (env : Env) (fs : FS) (dir unit : String)
    (priority : Nat) (label body : String) : FS × Int :=
  let path := dropInPath dir unit priority label
  let fs1 := mkdir_parents fs path
  match fs1.lookup path with
  | some _ => (fs1, -EEXIST)
  | none =>
    if env.flush_ok then (fs1.insertNew path (.file body), 0) else (fs1, -ENOSPC)

/-- Body of the device-timeout drop-in written by `generator_write_timeouts`
(generator.c:233), with the format specifiers substituted. -/
def timeout_drop_in_text (progName timeout : String) : String :=
  "# Automatically generated by " ++ progName ++ "\n\n" ++
  "[Unit]\n" ++
  "JobRunningTimeoutSec=" ++ timeout

/-- Embedding of `generator_write_timeouts` (generator.c:194): extract the
device-timeout option (absence or a filter error ends the call with the
filter's result), parse it as a duration (warn and succeed on failure),
resolve the device node (skip non-devices with a warning), derive the
`.device` unit name and write the priority-50 `device-timeout` drop-in. -/
def generator_write_timeouts (env : Env) (fs : FS)
    (dir what whr opts : String) : FS × Int :=
  match env.fstab_filter_timeout opts with
  | .error r => (fs, r)
  | .ok none => (fs, 0)
  | .ok (some timeout) =>
    match env.parse_sec_fix_0 timeout with
    | .error _ => (fs, 0)
    | .ok _ =>
      match env.fstab_node_to_udev_node what with
      | none => (fs, -ENOMEM)
      | some node =>
        if ¬ env.is_device_path node then (fs, 0)
        else
          match env.unit_name_from_path node ".device" with
          | .error r => (fs, r)
          | .ok unit =>
            write_drop_in_format env fs dir unit 50 "device-timeout"
              (timeout_drop_in_text env.progName timeout)

/-- Embedding of `generator_write_device_deps` (generator.c:241): when the
options carry `_netdev` (the external `fstab_test_option` probe, passed here
as `has_netdev`) and the source resolves to a device node, write the
priority-50 `netdev-dependencies` drop-in ordering the device unit after the
network targets. -/
def generator_write_device_deps (env : Env) (fs : FS)
    (dir what : String) (has_netdev : Bool) : FS × Int :=
  if ¬ has_netdev then (fs, 0)
  else
    match env.fstab_node_to_udev_node what with
    | none => (fs, -ENOMEM)
    | some node =>
      if ¬ env.is_device_path node then (fs, 0)
      else
        match env.unit_name_from_path node ".device" with
        | .error r => (fs, r)
        | .ok unit =>
          write_drop_in_format env fs dir unit 50 "netdev-dependencies"
            ("# Automatically generated by " ++ env.progName ++ "\n\n" ++
             "[Unit]\n" ++
             "After=" ++ SPECIAL_NETWORK_ONLINE_TARGET ++ " " ++ SPECIAL_NETWORK_TARGET ++ "\n" ++
             "Wants=" ++ SPECIAL_NETWORK_ONLINE_TARGET ++ "\n")

/-- Embedding of `generator_write_initrd_root_device_deps` (generator.c:281):
derive the `.device` unit of the root device and write the priority-50
`root-device` drop-in on `initrd-root-device.target`. -/
def generator_write_initrd_root_device_deps (env : Env) (fs : FS)
    (dir what : String) : FS × Int :=
  match env.unit_name_from_path what ".device" with
  | .error r => (fs, r)
  | .ok unit =>
    write_drop_in_format env fs dir SPECIAL_INITRD_ROOT_DEVICE_TARGET 50 "root-device"
      ("# Automatically generated by " ++ env.progName ++ "\n\n" ++
       "[Unit]\n" ++
       "Requires=" ++ unit ++ "\n" ++
       "After=" ++ unit)

/-- Body of the mkswap helper unit written by `generator_hook_up_mkswap`
(generator.c:341), with the format specifiers substituted. -/
def mkswap_unit_text (progName where_unit escaped : String) : String :=
  "# Automatically generated by " ++ progName ++ "\n\n" ++
  "[Unit]\n" ++
  "Description=Make Swap on %f\n" ++
  "Documentation=man:systemd-mkswap@.service(8)\n" ++
  "DefaultDependencies=no\n" ++
  "BindsTo=%i.device\n" ++
  "Conflicts=shutdown.target\n" ++
  "After=%i.device\n" ++
  "Before=shutdown.target " ++ where_unit ++ "\n" ++
  "\n" ++
  "[Service]\n" ++
  "Type=oneshot\n" ++
  "RemainAfterExit=yes\n" ++
  "ExecStart=" ++ SYSTEMD_MAKEFS_PATH ++ " swap " ++ escaped ++ "\n" ++
  "TimeoutSec=0\n"

/-- Embedding of `generator_hook_up_mkswap` (generator.c:300): resolve the
node (allocation failure aborts), refuse non-device nodes with `EINVAL`,
derive the mkswap instance unit and the `.swap` unit of the source, create
the helper unit exclusively, write its body, flush-and-check, then wire a
`requires` edge from the swap unit to the helper. -/
def generator_hook_up_mkswap (env : Env) (fs : FS) (dir what : String) : FS × Int :=
  match env.fstab_node_to_udev_node what with
  | none => (fs, -ENOMEM)
  | some node =>
    if ¬ env.is_device_path node then (fs, -EINVAL)
    else
      match env.unit_name_from_path_instance "systemd-mkswap" node ".service" with
      | .error r => (fs, r)
      | .ok unit =>
        let unit_file := dir ++ "/" ++ unit
        let escaped := env.cescape node
        match env.unit_name_from_path what ".swap" with
        | .error r => (fs, r)
        | .ok where_unit =>
          match fs.lookup unit_file with
          | some _ => (fs, -EEXIST)
          | none =>
            let fs1 := fs.insertNew unit_file (.file "")
            let h : Handle := ⟨unit_file, mkswap_unit_text env.progName where_unit escaped⟩
            let fr := fflush_and_check env fs1 h
            if fr.2 < 0 then (fr.1, fr.2)
            else generator_add_symlink fr.1 dir where_unit "requires" unit

/-- Body of the makefs helper unit written by `generator_hook_up_mkfs`
(generator.c:416), with the format specifiers substituted. -/
def mkfs_unit_text (progName where_unit type escaped : String) : String :=
  "# Automatically generated by " ++ progName ++ "\n\n" ++
  "[Unit]\n" ++
  "Description=Make File System on %f\n" ++
  "Documentation=man:systemd-makefs@.service(8)\n" ++
  "DefaultDependencies=no\n" ++
  "BindsTo=%i.device\n" ++
  "Conflicts=shutdown.target\n" ++
  "After=%i.device\n" ++
  "Before=shutdown.target systemd-fsck@%i.service " ++ where_unit ++ "\n" ++
  "\n" ++
  "[Service]\n" ++
  "Type=oneshot\n" ++
  "RemainAfterExit=yes\n" ++
  "ExecStart=" ++ SYSTEMD_MAKEFS_PATH ++ " " ++ type ++ " " ++ escaped ++ "\n" ++
  "TimeoutSec=0\n"

/-- Embedding of `generator_hook_up_mkfs` (generator.c:368): resolve the node
(allocation failure aborts), refuse non-device nodes with `EINVAL`, refuse a
null or `auto` filesystem type with `EINVAL` (the test is `!type ||
streq(type, "auto")`, so the empty string passes), derive the makefs instance
unit and the `.mount` unit of the mount point, create the helper unit
exclusively, write its body, flush-and-check, then wire a `requires` edge
from the mount unit to the helper. -/
def generator_hook_up_mkfs (env : Env) (fs : FS) (dir what whr : String)
    (type : Option String) : FS × Int :=
  match env.fstab_node_to_udev_node what with
  | none => (fs, -ENOMEM)
  | some node =>
    if ¬ env.is_device_path node then (fs, -EINVAL)
    else
      match type with
      | none => (fs, -EINVAL)
      | some t =>
        if t = "auto" then (fs, -EINVAL)
        else
          match env.unit_name_from_path_instance "systemd-makefs" node ".service" with
          | .error r => (fs, r)
          | .ok unit =>
            let unit_file := dir ++ "/" ++ unit
            let escaped := env.cescape node
            match env.unit_name_from_path whr ".mount" with
            | .error r => (fs, r)
            | .ok where_unit =>
              match fs.lookup unit_file with
              | some _ => (fs, -EEXIST)
              | none =>
                let fs1 := fs.insertNew unit_file (.file "")
                let h : Handle := ⟨unit_file, mkfs_unit_text env.progName where_unit t escaped⟩
                let fr := fflush_and_check env fs1 h
                if fr.2 < 0 then (fr.1, fr.2)
                else generator_add_symlink fr.1 dir where_unit "requires" unit

/-- Body of the growfs helper unit written by `generator_hook_up_growfs`
(generator.c:479), with the format specifiers substituted. -/
def growfs_unit_text (progName target escaped : String) : String :=
  "# Automatically generated by " ++ progName ++ "\n\n" ++
  "[Unit]\n" ++
  "Description=Grow File System on %f\n" ++
  "Documentation=man:systemd-growfs@.service(8)\n" ++
  "DefaultDependencies=no\n" ++
  "BindsTo=%i.mount\n" ++
  "Conflicts=shutdown.target\n" ++
  "After=%i.mount\n" ++
  "Before=shutdown.target " ++ target ++ "\n" ++
  "\n" ++
  "[Service]\n" ++
  "Type=oneshot\n" ++
  "RemainAfterExit=yes\n" ++
  "ExecStart=" ++ SYSTEMD_GROWFS_PATH ++ " " ++ escaped ++ "\n" ++
  "TimeoutSec=0\n"

/-- Embedding of `generator_hook_up_growfs` (generator.c:447): escape the
mount point, derive the growfs instance unit and the `.mount` unit, create
the helper unit exclusively and write its body, then return the result of
wiring a `wants` edge from the mount unit to the helper.  Unlike the mkswap
and mkfs hooks there is no `fflush_and_check` call: the stream is flushed
only by the `_cleanup_fclose_` that runs after the symlink result is already
computed, and its failure is discarded. -/
def generator_hook_up_growfs (env : Env) (fs : FS)
    (dir whr target : String) : FS × Int :=
  let escaped := env.cescape whr
  match env.unit_name_from_path_instance "systemd-growfs" whr ".service" with
  | .error r => (fs, r)
  | .ok unit =>
    match env.unit_name_from_path whr ".mount" with
    | .error r => (fs, r)
    | .ok where_unit =>
      let unit_file := dir ++ "/" ++ unit
      match fs.lookup unit_file with
      | some _ => (fs, -EEXIST)
      | none =>
        let fs1 := fs.insertNew unit_file (.file "")
        let h : Handle := ⟨unit_file, growfs_unit_text env.progName target escaped⟩
        let fr := generator_add_symlink fs1 dir where_unit "wants" unit
        (h.close env fr.1, fr.2)

/-- Embedding of `generator_enable_remount_fs_service` (generator.c:502):
pull `systemd-remount-fs.service` into `local-fs.target` via a `wants`
edge. -/
def generator_enable_remount_fs_service (fs : FS) (dir : String) : FS × Int :=
  generator_add_symlink fs dir SPECIAL_LOCAL_FS_TARGET "wants"
    (SYSTEM_DATA_UNIT_PATH ++ "/" ++ SPECIAL_REMOUNT_FS_SERVICE)

/-! ### Basic lemmas about the file-system model -/

theorem FS.lookup_insertNew_self (fs : FS) (p : String) (e : Entry) :
    FS.lookup (fs.insertNew p e) p = some e := by
  simp [FS.insertNew, FS.lookup]

theorem FS.lookup_insertNew_ne (fs : FS) (p q : String) (e : Entry) (h : p ≠ q) :
    FS.lookup (fs.insertNew p e) q = FS.lookup fs q := by
  simp [FS.insertNew, FS.lookup, h]

theorem FS.lookup_set_self (fs : FS) (p : String) (e : Entry) :
    FS.lookup (fs.set p e) p = some e := by
  induction fs with
  | nil => simp [FS.set, FS.lookup]
  | cons hd tl ih =>
      by_cases h : hd.1 = p
      · simp [FS.set, FS.lookup, h]
      · simp [FS.set, FS.lookup, h, ih]

theorem FS.lookup_set_ne (fs : FS) (p q : String) (e : Entry) (h : p ≠ q) :
    FS.lookup (fs.set p e) q = FS.lookup fs q := by
  induction fs with
  | nil => simp [FS.set, FS.lookup, h]
  | cons hd tl ih =>
      by_cases h1 : hd.1 = p
      · simp [FS.set, FS.lookup, h1, h]
      · simp [FS.set, FS.lookup, h1, ih]

theorem FS.lookup_eq_none_of_countPath_zero (fs : FS) (p : String)
    (h : FS.countPath fs p = 0) : FS.lookup fs p = none := by
  induction fs with
  | nil => rfl
  | cons hd tl ih =>
      by_cases h1 : hd.1 = p
      · simp [FS.countPath, h1] at h
      · simp [FS.countPath, h1] at h
        simp [FS.lookup, h1, ih h]

theorem FS.countPath_insertNew_self (fs : FS) (p : String) (e : Entry) :
    FS.countPath (fs.insertNew p e) p = FS.countPath fs p + 1 := by
  simp [FS.insertNew, FS.countPath]
  omega

/-! ### Behaviour of `generator_add_symlink` on free and occupied link paths -/

theorem add_symlink_creates (fs : FS) (dir dst dep_type src : String)
    (h : FS.lookup fs (linkPath dir dst dep_type src) = none) :
    generator_add_symlink fs dir dst dep_type src =
      (fs.insertNew (linkPath dir dst dep_type src)
        (.symlink (if path_is_absolute src then src else "../" ++ src)), 0) := by
  simp [generator_add_symlink, mkdir_parents, symlinkSys, h]

theorem add_symlink_existing (fs : FS) (dir dst dep_type src : String) (e : Entry)
    (h : FS.lookup fs (linkPath dir dst dep_type src) = some e) :
    generator_add_symlink fs dir dst dep_type src = (fs, 0) := by
  simp [generator_add_symlink, mkdir_parents, symlinkSys, h, EEXIST]

/-! ### Sample collaborator environment for concrete runs -/

/-- Split a character list at slashes. -/
def splitSlash : List Char → List (List Char)
  | [] => [[]]
  | c :: rest =>
    match splitSlash rest with
    | [] => [[]]
    | h :: t => if c = '/' then [] :: h :: t else (c :: h) :: t

/-- Join character lists with dashes. -/
def joinDash : List (List Char) → List Char
  | [] => []
  | [x] => x
  | x :: y :: t => x ++ '-' :: joinDash (y :: t)

/-- Sample unit-name codec used when the environment is instantiated on
concrete inputs: joins the non-empty path components with dashes (the real
codec additionally escapes special characters, which the concrete inputs
below avoid). -/
def sysdPathEscape (p : String) : String :=
  match (splitSlash p.data).filter (fun c => ¬ c.isEmpty) with
  | [] => "-"
  | comps => ⟨joinDash comps⟩

/-- Sample collaborator environment for concrete runs: device paths are the
`/dev/` and `/sys/` trees, every checker exists, the resolver is the
identity, the codec is `sysdPathEscape`, the option filter recognises the
two timeout option strings the claims mention, only `30` parses as a
duration, the escapers are the identity (the concrete inputs contain no
character needing escape) and flushes succeed. -/
def env0 : Env where
  progName := "systemd-fstab-generator"
  is_device_path := fun s =>
    "/dev/".data.isPrefixOf s.data || "/sys/".data.isPrefixOf s.data
  fsck_exists := fun _ => 1
  in_initrd := false
  fstab_node_to_udev_node := fun s => some s
  unit_name_from_path := fun p suffix => .ok (sysdPathEscape p ++ suffix)
  unit_name_from_path_instance := fun pre p suffix =>
    .ok (pre ++ "@" ++ sysdPathEscape p ++ suffix)
  fstab_filter_timeout := fun opts =>
    if opts = "x-systemd.device-timeout=30" then .ok (some "30")
    else if opts = "x-systemd.device-timeout=abc" then .ok (some "abc")
    else .ok none
  parse_sec_fix_0 := fun s => if s = "30" then .ok 30000000 else .error (-EINVAL)
  cescape := fun s => s
  specifier_escape := fun s => s
  flush_ok := true

/-- The sample environment with deferred writes failing (disk full at flush
time). -/
def envNoFlush : Env := { env0 with flush_ok := false }

/-! ### Substring containment and facts about the generated unit texts -/

/-- `sub` occurs inside `s`. -/
def containsStr (s sub : String) : Prop := ∃ a b, s = a ++ sub ++ b

theorem timeout_text_contains (p t : String) :
    containsStr (timeout_drop_in_text p t) ("JobRunningTimeoutSec=" ++ t) := by
  refine ⟨"# Automatically generated by " ++ p ++ "\n\n" ++ "[Unit]\n", "", ?_⟩
  simp only [timeout_drop_in_text, String.append_assoc, String.append_empty]

theorem growfs_text_contains (p target esc : String) :
    containsStr (growfs_unit_text p target esc)
      ("ExecStart=" ++ SYSTEMD_GROWFS_PATH ++ " " ++ esc) := by
  refine ⟨"# Automatically generated by " ++ p ++ "\n\n" ++ "[Unit]\n" ++
    "Description=Grow File System on %f\n" ++
    "Documentation=man:systemd-growfs@.service(8)\n" ++
    "DefaultDependencies=no\n" ++ "BindsTo=%i.mount\n" ++
    "Conflicts=shutdown.target\n" ++ "After=%i.mount\n" ++
    "Before=shutdown.target " ++ target ++ "\n" ++ "\n" ++
    "[Service]\n" ++ "Type=oneshot\n" ++ "RemainAfterExit=yes\n",
    "\n" ++ "TimeoutSec=0\n", ?_⟩
  simp only [growfs_unit_text, String.append_assoc]

/-! ### The success path of each format-time hook, as one rewrite each -/

theorem mkswap_success_run (env : Env) (fs : FS) (dir what node unit where_unit : String)
    (hnode : env.fstab_node_to_udev_node what = some node)
    (hdev : env.is_device_path node = true)
    (hinst : env.unit_name_from_path_instance "systemd-mkswap" node ".service" = .ok unit)
    (hswap : env.unit_name_from_path what ".swap" = .ok where_unit)
    (hfile : FS.lookup fs (dir ++ "/" ++ unit) = none)
    (hflush : env.flush_ok = true) :
    generator_hook_up_mkswap env fs dir what =
      generator_add_symlink
        ((fs.insertNew (dir ++ "/" ++ unit) (.file "")).set (dir ++ "/" ++ unit)
          (.file (mkswap_unit_text env.progName where_unit (env.cescape node))))
        dir where_unit "requires" unit := by
  simp [generator_hook_up_mkswap, hnode, hdev, hinst, hswap, hfile,
        fflush_and_check, hflush]

theorem mkfs_success_run (env : Env) (fs : FS) (dir what whr node t unit where_unit : String)
    (hnode : env.fstab_node_to_udev_node what = some node)
    (hdev : env.is_device_path node = true)
    (hauto : t ≠ "auto")
    (hinst : env.unit_name_from_path_instance "systemd-makefs" node ".service" = .ok unit)
    (hmnt : env.unit_name_from_path whr ".mount" = .ok where_unit)
    (hfile : FS.lookup fs (dir ++ "/" ++ unit) = none)
    (hflush : env.flush_ok = true) :
    generator_hook_up_mkfs env fs dir what whr (some t) =
      generator_add_symlink
        ((fs.insertNew (dir ++ "/" ++ unit) (.file "")).set (dir ++ "/" ++ unit)
          (.file (mkfs_unit_text env.progName where_unit t (env.cescape node))))
        dir where_unit "requires" unit := by
  simp [generator_hook_up_mkfs, hnode, hdev, hauto, hinst, hmnt, hfile,
        fflush_and_check, hflush]

theorem growfs_success_run (env : Env) (fs : FS) (dir whr target unit where_unit : String)
    (hinst : env.unit_name_from_path_instance "systemd-growfs" whr ".service" = .ok unit)
    (hmnt : env.unit_name_from_path whr ".mount" = .ok where_unit)
    (hfile : FS.lookup fs (dir ++ "/" ++ unit) = none) :
    generator_hook_up_growfs env fs dir whr target =
      (Handle.close env
        (generator_add_symlink (fs.insertNew (dir ++ "/" ++ unit) (.file ""))
          dir where_unit "wants" unit).1
        ⟨dir ++ "/" ++ unit, growfs_unit_text env.progName target (env.cescape whr)⟩,
       (generator_add_symlink (fs.insertNew (dir ++ "/" ++ unit) (.file ""))
          dir where_unit "wants" unit).2) := by
  simp [generator_hook_up_growfs, hinst, hmnt, hfile]

/-- The root branch of `generator_write_fsck_deps`, isolated: with a
device-node source and a probe that does not skip the record, the call for
mount point `/` reduces to the raw symlink creation of the root-check
edge. -/
theorem fsck_deps_root_branch (env : Env) (fs : FS) (f : Handle) (dir what : String)
    (fstype : Option String)
    (hdev : env.is_device_path what = true)
    (hprobe : isempty fstype = true ∨ fstype = some "auto" ∨
              env.fsck_exists (fstype.getD "") ≠ 0) :
    generator_write_fsck_deps env fs f dir what "/" fstype =
      (let fr := symlinkSys fs (SYSTEM_DATA_UNIT_PATH ++ "/" ++ SPECIAL_FSCK_ROOT_SERVICE)
                   (rootCheckLink dir)
       if fr.2 < 0 then (fr.1, f, fr.2) else (fr.1, f, 0)) := by
  have hskip : ¬ ((¬ isempty fstype = true ∧ fstype.getD "" ≠ "auto") ∧
      env.fsck_exists (fstype.getD "") = 0) := by
    rcases hprobe with h | h | h
    · simp [h]
    · subst h; simp [Option.getD, isempty]
    · simp [h]
  simp [generator_write_fsck_deps, hdev, hskip, path_equal, mkdir_parents]
  intro h1 h2 h3
  exact absurd ⟨⟨by simp [h1], h2⟩, h3⟩ hskip

/-! ### Claim C1 -/

/-- C1 counterexample: with the root-check link already present — even with
the identical destination — the root branch of `generator_write_fsck_deps`
returns the error `-EEXIST` instead of treating the existing edge as a
successful no-op. -/
theorem C1_counterexample :
    (generator_write_fsck_deps env0
        [(rootCheckLink "/run/w1",
          Entry.symlink (SYSTEM_DATA_UNIT_PATH ++ "/" ++ SPECIAL_FSCK_ROOT_SERVICE))]
        ⟨"/run/w1/x.mount", ""⟩ "/run/w1" "/dev/sda1" "/" none).2.2 = -EEXIST ∧
    (generator_write_fsck_deps env0
        [(rootCheckLink "/run/w1",
          Entry.symlink (SYSTEM_DATA_UNIT_PATH ++ "/" ++ SPECIAL_FSCK_ROOT_SERVICE))]
        ⟨"/run/w1/x.mount", ""⟩ "/run/w1" "/dev/sda1" "/" none).2.2 ≠ 0 := by
  decide

/-- C1 amended: an edge created through `generator_add_symlink` (the AddEdge
primitive used by the mkswap, mkfs and growfs hooks and the remount-fs
helper) treats an already-existing link at the computed path as success, but
the root-check `wants` edge created directly by `generator_write_fsck_deps`
is an exception: when that link already exists the call fails with
`-EEXIST`. -/
theorem C1_amended_edge_idempotence (fs : FS) (dir dst dep_type src : String) (e : Entry)
    (env : Env) (fs2 : FS) (f : Handle) (dir2 what : String) (fstype : Option String)
    (e2 : Entry)
    (hadd : FS.lookup fs (linkPath dir dst dep_type src) = some e)
    (hdev : env.is_device_path what = true)
    (hprobe : isempty fstype = true ∨ fstype = some "auto" ∨
              env.fsck_exists (fstype.getD "") ≠ 0)
    (hroot : FS.lookup fs2 (rootCheckLink dir2) = some e2) :
    generator_add_symlink fs dir dst dep_type src = (fs, 0) ∧
    (generator_write_fsck_deps env fs2 f dir2 what "/" fstype).2.2 = -EEXIST := by
  refine ⟨add_symlink_existing fs dir dst dep_type src e hadd, ?_⟩
  rw [fsck_deps_root_branch env fs2 f dir2 what fstype hdev hprobe]
  simp [symlinkSys, hroot, EEXIST]

/-- C1 witness: the amended statement instantiated on concrete runs. -/
theorem C1_witness :
    generator_add_symlink
      [(linkPath "/run/w1b" "t.target" "wants" "u.service", Entry.symlink "../other.service")]
      "/run/w1b" "t.target" "wants" "u.service"
      = ([(linkPath "/run/w1b" "t.target" "wants" "u.service", Entry.symlink "../other.service")], 0) ∧
    (generator_write_fsck_deps env0 [(rootCheckLink "/run/w1b", Entry.symlink "x")]
        ⟨"/run/w1b/y.mount", ""⟩ "/run/w1b" "/dev/sdz1" "/" none).2.2 = -EEXIST :=
  C1_amended_edge_idempotence
    [(linkPath "/run/w1b" "t.target" "wants" "u.service", Entry.symlink "../other.service")]
    "/run/w1b" "t.target" "wants" "u.service" (Entry.symlink "../other.service")
    env0 [(rootCheckLink "/run/w1b", Entry.symlink "x")] ⟨"/run/w1b/y.mount", ""⟩
    "/run/w1b" "/dev/sdz1" none (Entry.symlink "x")
    (by decide) (by decide) (Or.inl (by decide)) (by decide)

/-! ### Claim C2 -/

/-- C2 counterexample: a record with mount point `/` whose device string is
not a recognised device node (`remote:/export`) is skipped with a warning —
the call succeeds but no `wants` symlink to the root-check unit is created,
refuting "for every device path string". -/
theorem C2_counterexample :
    generator_write_fsck_deps env0 [] ⟨"/run/w2/x.mount", ""⟩ "/run/w2" "remote:/export" "/" none
      = ([], ⟨"/run/w2/x.mount", ""⟩, 0) ∧
    FS.lookup (generator_write_fsck_deps env0 [] ⟨"/run/w2/x.mount", ""⟩ "/run/w2"
        "remote:/export" "/" none).1 (rootCheckLink "/run/w2") = none := by
  decide

/-- C2 amended: for every mount record with mount point `/` whose device path
is a recognised device node, when the filesystem-type probe does not skip the
record and the link is not already present, the check rule creates the
`wants` symlink from the local-filesystems target directory to the
well-known root-check unit and succeeds. -/
theorem C2_amended_root_check (env : Env) (fs : FS) (f : Handle) (dir what : String)
    (fstype : Option String)
    (hdev : env.is_device_path what = true)
    (hprobe : isempty fstype = true ∨ fstype = some "auto" ∨
              env.fsck_exists (fstype.getD "") ≠ 0)
    (hfree : FS.lookup fs (rootCheckLink dir) = none) :
    (generator_write_fsck_deps env fs f dir what "/" fstype).2.2 = 0 ∧
    FS.lookup (generator_write_fsck_deps env fs f dir what "/" fstype).1 (rootCheckLink dir)
      = some (.symlink (SYSTEM_DATA_UNIT_PATH ++ "/" ++ SPECIAL_FSCK_ROOT_SERVICE)) := by
  rw [fsck_deps_root_branch env fs f dir what fstype hdev hprobe]
  simp [symlinkSys, hfree, FS.lookup_insertNew_self]

/-- C2 witness: the amended statement instantiated on a concrete run. -/
theorem C2_witness :
    (generator_write_fsck_deps env0 [] ⟨"/run/w2b/z.mount", ""⟩ "/run/w2b" "/dev/sda2" "/" none).2.2 = 0 ∧
    FS.lookup (generator_write_fsck_deps env0 [] ⟨"/run/w2b/z.mount", ""⟩ "/run/w2b"
        "/dev/sda2" "/" none).1 (rootCheckLink "/run/w2b")
      = some (.symlink (SYSTEM_DATA_UNIT_PATH ++ "/" ++ SPECIAL_FSCK_ROOT_SERVICE)) :=
  C2_amended_root_check env0 [] ⟨"/run/w2b/z.mount", ""⟩ "/run/w2b" "/dev/sda2" none
    (by decide) (Or.inl (by decide)) (by decide)

/-! ### Claim C3 -/

/-- C3 counterexample: with the empty string (not the null pointer) as
filesystem type and a device-node source, the mkfs hook does not fail with
an invalid-argument error — it creates the helper unit file and returns
success, because the source only tests `!type || streq(type, "auto")`. -/
theorem C3_counterexample :
    (generator_hook_up_mkfs env0 [] "/run/w3" "/dev/sdb1" "/data" (some "")).2 = 0 ∧
    (FS.lookup (generator_hook_up_mkfs env0 [] "/run/w3" "/dev/sdb1" "/data" (some "")).1
      "/run/w3/systemd-makefs@dev-sdb1.service").isSome = true := by
  decide

/-- C3 amended: for every filesystem-type argument that is either the string
`auto` or absent (the C null pointer), the mkfs hook fails with the
invalid-argument error `-EINVAL` and leaves the file system unchanged (no
unit file is created), provided the device argument resolves to a device
node; the empty string, by contrast, is accepted. -/
theorem C3_mkfs_rejects_auto_or_null (env : Env) (fs : FS)
    (dir what whr node : String) (type : Option String)
    (hnode : env.fstab_node_to_udev_node what = some node)
    (hdev : env.is_device_path node = true)
    (htype : type = none ∨ type = some "auto") :
    generator_hook_up_mkfs env fs dir what whr type = (fs, -EINVAL) := by
  rcases htype with h | h <;> subst h <;>
    simp [generator_hook_up_mkfs, hnode, hdev]

/-- C3 witness: the amended statement instantiated on a concrete run. -/
theorem C3_witness :
    generator_hook_up_mkfs env0 [] "/run/w3b" "/dev/sdb2" "/data" (some "auto")
      = ([], -EINVAL) :=
  C3_mkfs_rejects_auto_or_null env0 [] "/run/w3b" "/dev/sdb2" "/data" "/dev/sdb2"
    (some "auto") rfl (by decide) (Or.inr rfl)

/-! ### Claim C4 -/

/-- C4: starting from a state without the link, calling
`generator_add_symlink` twice with the same arguments returns success both
times, leaves exactly one binding for the link path on disk, and the second
call changes nothing. -/
theorem C4_add_symlink_idempotent (fs : FS) (dir dst dep_type src : String)
    (hfree : FS.countPath fs (linkPath dir dst dep_type src) = 0) :
    (generator_add_symlink fs dir dst dep_type src).2 = 0 ∧
    generator_add_symlink (generator_add_symlink fs dir dst dep_type src).1
        dir dst dep_type src
      = ((generator_add_symlink fs dir dst dep_type src).1, 0) ∧
    FS.countPath (generator_add_symlink fs dir dst dep_type src).1
      (linkPath dir dst dep_type src) = 1 := by
  have hnone := FS.lookup_eq_none_of_countPath_zero fs _ hfree
  have h1 := add_symlink_creates fs dir dst dep_type src hnone
  refine ⟨by rw [h1], ?_, ?_⟩
  · rw [h1]
    exact add_symlink_existing _ dir dst dep_type src _
      (FS.lookup_insertNew_self fs (linkPath dir dst dep_type src) _)
  · rw [h1]
    simp [FS.countPath_insertNew_self, hfree]

/-- C4 witness: the idempotence theorem instantiated on a concrete run. -/
theorem C4_witness :
    (generator_add_symlink [] "/run/w4" "a.target" "wants" "b.service").2 = 0 ∧
    generator_add_symlink (generator_add_symlink [] "/run/w4" "a.target" "wants" "b.service").1
        "/run/w4" "a.target" "wants" "b.service"
      = ((generator_add_symlink [] "/run/w4" "a.target" "wants" "b.service").1, 0) ∧
    FS.countPath (generator_add_symlink [] "/run/w4" "a.target" "wants" "b.service").1
      (linkPath "/run/w4" "a.target" "wants" "b.service") = 1 :=
  C4_add_symlink_idempotent [] "/run/w4" "a.target" "wants" "b.service" (by decide)

/-! ### Claim C5 -/

/-- C5: opening a unit name that already exists in the output directory
fails with the conflict error `-EEXIST` and leaves the file system — in
particular the existing file's content — byte-for-byte untouched. -/
theorem C5_open_unit_file_conflict (env : Env) (fs : FS) (dest name : String)
    (source : Option String) (e : Entry)
    (h : FS.lookup fs (dest ++ "/" ++ name) = some e) :
    generator_open_unit_file env fs dest source name = (fs, .error (-EEXIST)) := by
  simp [generator_open_unit_file, h]

/-- C5 witness: the conflict theorem instantiated on a concrete run with an
existing file whose content survives. -/
theorem C5_witness :
    generator_open_unit_file env0 [("/run/w5/foo.service", Entry.file "orig")]
      "/run/w5" (some "/etc/fstab") "foo.service"
      = ([("/run/w5/foo.service", Entry.file "orig")], .error (-EEXIST)) :=
  C5_open_unit_file_conflict env0 [("/run/w5/foo.service", Entry.file "orig")]
    "/run/w5" "foo.service" (some "/etc/fstab") (Entry.file "orig") (by decide)

/-! ### Claim C6 -/

/-- C6: (a) an option set carrying `x-systemd.device-timeout=30` whose
device resolves to a device-backed path yields a drop-in at priority 50 with
label `device-timeout` whose body contains `JobRunningTimeoutSec=30`; (b) an
option set whose timeout value is unparseable as a duration yields no
drop-in and the call returns success (warning only). -/
theorem C6_write_timeouts :
    (∀ (env : Env) (fs : FS) (dir what whr opts node unit : String) (u : Nat),
      env.fstab_filter_timeout opts = .ok (some "30") →
      env.parse_sec_fix_0 "30" = .ok u →
      env.fstab_node_to_udev_node what = some node →
      env.is_device_path node = true →
      env.unit_name_from_path node ".device" = .ok unit →
      env.flush_ok = true →
      FS.lookup fs (dropInPath dir unit 50 "device-timeout") = none →
      (generator_write_timeouts env fs dir what whr opts).2 = 0 ∧
      ∃ body,
        FS.lookup (generator_write_timeouts env fs dir what whr opts).1
          (dropInPath dir unit 50 "device-timeout") = some (.file body) ∧
        containsStr body "JobRunningTimeoutSec=30") ∧
    (∀ (env : Env) (fs : FS) (dir what whr opts t : String) (e : Int),
      env.fstab_filter_timeout opts = .ok (some t) →
      env.parse_sec_fix_0 t = .error e →
      generator_write_timeouts env fs dir what whr opts = (fs, 0)) := by
  constructor
  · intro env fs dir what whr opts node unit u hfilter hparse hnode hdev hunit hflush hfree
    have hrun : generator_write_timeouts env fs dir what whr opts =
        (fs.insertNew (dropInPath dir unit 50 "device-timeout")
          (.file (timeout_drop_in_text env.progName "30")), 0) := by
      simp [generator_write_timeouts, hfilter, hparse, hnode, hdev, hunit,
            write_drop_in_format, mkdir_parents, hfree, hflush]
    rw [hrun]
    refine ⟨rfl, timeout_drop_in_text env.progName "30",
      FS.lookup_insertNew_self fs (dropInPath dir unit 50 "device-timeout") _, ?_⟩
    have h30 : ("JobRunningTimeoutSec=" ++ "30" : String) = "JobRunningTimeoutSec=30" := by
      decide
    exact h30 ▸ timeout_text_contains env.progName "30"
  · intro env fs dir what whr opts t e hfilter hparse
    simp [generator_write_timeouts, hfilter, hparse]

/-- C6 witness: both branches of the timeout theorem instantiated on concrete
runs. -/
theorem C6_witness :
    ((generator_write_timeouts env0 [] "/run/w6" "/dev/sdd1" "/mnt"
        "x-systemd.device-timeout=30").2 = 0 ∧
      ∃ body,
        FS.lookup (generator_write_timeouts env0 [] "/run/w6" "/dev/sdd1" "/mnt"
            "x-systemd.device-timeout=30").1
          (dropInPath "/run/w6" "dev-sdd1.device" 50 "device-timeout") = some (.file body) ∧
        containsStr body "JobRunningTimeoutSec=30") ∧
    generator_write_timeouts env0 [] "/run/w6" "/dev/sdd1" "/mnt"
        "x-systemd.device-timeout=abc" = ([], 0) :=
  ⟨C6_write_timeouts.1 env0 [] "/run/w6" "/dev/sdd1" "/mnt" "x-systemd.device-timeout=30"
      "/dev/sdd1" "dev-sdd1.device" 30000000 rfl rfl rfl (by decide) rfl rfl (by decide),
   C6_write_timeouts.2 env0 [] "/run/w6" "/dev/sdd1" "/mnt" "x-systemd.device-timeout=abc"
      "abc" (-EINVAL) rfl rfl⟩

/-! ### Claim C7 -/

/-- C7 refuted for the growfs hook: with the deferred write failing (disk
full at flush time), `generator_hook_up_growfs` still returns success and
creates the `wants` edge while the helper unit's buffered body is lost (the
file stays empty) — it never flush-and-checks; the mkswap and mkfs hooks at
the same failing environment surface the failure as `-ENOSPC`, as the claim
demands. -/
theorem C7_growfs_ignores_flush_failure :
    (generator_hook_up_growfs envNoFlush [] "/run/w7" "/data" "local-fs.target").2 = 0 ∧
    FS.lookup (generator_hook_up_growfs envNoFlush [] "/run/w7" "/data" "local-fs.target").1
      "/run/w7/systemd-growfs@data.service" = some (.file "") ∧
    FS.lookup (generator_hook_up_growfs envNoFlush [] "/run/w7" "/data" "local-fs.target").1
      "/run/w7/data.mount.wants/systemd-growfs@data.service"
      = some (.symlink "../systemd-growfs@data.service") ∧
    (generator_hook_up_mkswap envNoFlush [] "/run/w7" "/dev/sdc1").2 = -ENOSPC ∧
    (generator_hook_up_mkfs envNoFlush [] "/run/w7" "/dev/sdc2" "/data" (some "ext4")).2
      = -ENOSPC := by
  decide

/-! ### Claim C8 -/

/-- C8: a successful growfs hook invocation for mount point `/data` and
target `local-fs.target` writes a helper unit whose body contains the
`ExecStart` line with the command-safe escaped form of `/data`, and creates
a `wants` edge from `/data`'s mount unit to the new growfs instance unit. -/
theorem C8_growfs_execstart_and_wants (env : Env) (fs : FS)
    (dir unit where_unit : String)
    (hinst : env.unit_name_from_path_instance "systemd-growfs" "/data" ".service" = .ok unit)
    (hmnt : env.unit_name_from_path "/data" ".mount" = .ok where_unit)
    (hflush : env.flush_ok = true)
    (hfile : FS.lookup fs (dir ++ "/" ++ unit) = none)
    (hlink : FS.lookup fs (linkPath dir where_unit "wants" unit) = none)
    (hne : ¬ dir ++ "/" ++ unit = linkPath dir where_unit "wants" unit) :
    (generator_hook_up_growfs env fs dir "/data" "local-fs.target").2 = 0 ∧
    (∃ body,
      FS.lookup (generator_hook_up_growfs env fs dir "/data" "local-fs.target").1
        (dir ++ "/" ++ unit) = some (.file body) ∧
      containsStr body ("ExecStart=" ++ SYSTEMD_GROWFS_PATH ++ " " ++ env.cescape "/data")) ∧
    (∃ d,
      FS.lookup (generator_hook_up_growfs env fs dir "/data" "local-fs.target").1
        (linkPath dir where_unit "wants" unit) = some (.symlink d)) := by
  rw [growfs_success_run env fs dir "/data" "local-fs.target" unit where_unit hinst hmnt hfile]
  have hl1 : FS.lookup (fs.insertNew (dir ++ "/" ++ unit) (.file ""))
      (linkPath dir where_unit "wants" unit)
      = FS.lookup fs (linkPath dir where_unit "wants" unit) :=
    FS.lookup_insertNew_ne fs _ _ _ hne
  have hcreate := add_symlink_creates (fs.insertNew (dir ++ "/" ++ unit) (.file ""))
      dir where_unit "wants" unit (hl1.trans hlink)
  rw [hcreate]
  refine ⟨rfl, ?_, ?_⟩
  · refine ⟨growfs_unit_text env.progName "local-fs.target" (env.cescape "/data"), ?_,
      growfs_text_contains env.progName "local-fs.target" (env.cescape "/data")⟩
    simp only [Handle.close, hflush, if_true]
    exact FS.lookup_set_self _ (dir ++ "/" ++ unit) _
  · refine ⟨if path_is_absolute unit then unit else "../" ++ unit, ?_⟩
    simp only [Handle.close, hflush, if_true]
    rw [FS.lookup_set_ne _ (dir ++ "/" ++ unit) (linkPath dir where_unit "wants" unit) _ hne]
    exact FS.lookup_insertNew_self _ (linkPath dir where_unit "wants" unit) _

/-- C8 witness: the growfs theorem instantiated on a concrete run. -/
theorem C8_witness :
    (generator_hook_up_growfs env0 [] "/run/w8" "/data" "local-fs.target").2 = 0 ∧
    (∃ body,
      FS.lookup (generator_hook_up_growfs env0 [] "/run/w8" "/data" "local-fs.target").1
        ("/run/w8" ++ "/" ++ "systemd-growfs@data.service") = some (.file body) ∧
      containsStr body ("ExecStart=" ++ SYSTEMD_GROWFS_PATH ++ " " ++ env0.cescape "/data")) ∧
    (∃ d,
      FS.lookup (generator_hook_up_growfs env0 [] "/run/w8" "/data" "local-fs.target").1
        (linkPath "/run/w8" "data.mount" "wants" "systemd-growfs@data.service")
        = some (.symlink d)) :=
  C8_growfs_execstart_and_wants env0 [] "/run/w8" "systemd-growfs@data.service" "data.mount"
    rfl rfl rfl (by decide) (by decide) (by decide)

/-! ### Claim C9 -/

/-- C9: on the success path the consumer-to-helper edge is created under
`<consumer>.requires/` by the mkswap and mkfs hooks and under
`<consumer>.wants/` by the growfs hook — the relation asymmetry is exactly
as stated. -/
theorem C9_relation_asymmetry :
    (∀ (env : Env) (fs : FS) (dir what node unit where_unit : String),
      env.fstab_node_to_udev_node what = some node →
      env.is_device_path node = true →
      env.unit_name_from_path_instance "systemd-mkswap" node ".service" = .ok unit →
      env.unit_name_from_path what ".swap" = .ok where_unit →
      FS.lookup fs (dir ++ "/" ++ unit) = none →
      env.flush_ok = true →
      FS.lookup fs (linkPath dir where_unit "requires" unit) = none →
      ¬ dir ++ "/" ++ unit = linkPath dir where_unit "requires" unit →
      (generator_hook_up_mkswap env fs dir what).2 = 0 ∧
      ∃ d, FS.lookup (generator_hook_up_mkswap env fs dir what).1
        (linkPath dir where_unit "requires" unit) = some (.symlink d)) ∧
    (∀ (env : Env) (fs : FS) (dir what whr node t unit where_unit : String),
      env.fstab_node_to_udev_node what = some node →
      env.is_device_path node = true →
      t ≠ "auto" →
      env.unit_name_from_path_instance "systemd-makefs" node ".service" = .ok unit →
      env.unit_name_from_path whr ".mount" = .ok where_unit →
      FS.lookup fs (dir ++ "/" ++ unit) = none →
      env.flush_ok = true →
      FS.lookup fs (linkPath dir where_unit "requires" unit) = none →
      ¬ dir ++ "/" ++ unit = linkPath dir where_unit "requires" unit →
      (generator_hook_up_mkfs env fs dir what whr (some t)).2 = 0 ∧
      ∃ d, FS.lookup (generator_hook_up_mkfs env fs dir what whr (some t)).1
        (linkPath dir where_unit "requires" unit) = some (.symlink d)) ∧
    (∀ (env : Env) (fs : FS) (dir whr target unit where_unit : String),
      env.unit_name_from_path_instance "systemd-growfs" whr ".service" = .ok unit →
      env.unit_name_from_path whr ".mount" = .ok where_unit →
      FS.lookup fs (dir ++ "/" ++ unit) = none →
      FS.lookup fs (linkPath dir where_unit "wants" unit) = none →
      ¬ dir ++ "/" ++ unit = linkPath dir where_unit "wants" unit →
      (generator_hook_up_growfs env fs dir whr target).2 = 0 ∧
      ∃ d, FS.lookup (generator_hook_up_growfs env fs dir whr target).1
        (linkPath dir where_unit "wants" unit) = some (.symlink d)) := by
  refine ⟨?_, ?_, ?_⟩
  · intro env fs dir what node unit where_unit hnode hdev hinst hswap hfile hflush hlink hne
    rw [mkswap_success_run env fs dir what node unit where_unit hnode hdev hinst hswap
        hfile hflush]
    have hl1 : FS.lookup
        ((fs.insertNew (dir ++ "/" ++ unit) (.file "")).set (dir ++ "/" ++ unit)
          (.file (mkswap_unit_text env.progName where_unit (env.cescape node))))
        (linkPath dir where_unit "requires" unit)
        = FS.lookup fs (linkPath dir where_unit "requires" unit) := by
      rw [FS.lookup_set_ne _ _ _ _ hne]
      exact FS.lookup_insertNew_ne fs _ _ _ hne
    rw [add_symlink_creates _ dir where_unit "requires" unit (hl1.trans hlink)]
    exact ⟨rfl, _, FS.lookup_insertNew_self _ (linkPath dir where_unit "requires" unit) _⟩
  · intro env fs dir what whr node t unit where_unit hnode hdev ht hinst hmnt hfile hflush
      hlink hne
    rw [mkfs_success_run env fs dir what whr node t unit where_unit hnode hdev ht hinst hmnt
        hfile hflush]
    have hl1 : FS.lookup
        ((fs.insertNew (dir ++ "/" ++ unit) (.file "")).set (dir ++ "/" ++ unit)
          (.file (mkfs_unit_text env.progName where_unit t (env.cescape node))))
        (linkPath dir where_unit "requires" unit)
        = FS.lookup fs (linkPath dir where_unit "requires" unit) := by
      rw [FS.lookup_set_ne _ _ _ _ hne]
      exact FS.lookup_insertNew_ne fs _ _ _ hne
    rw [add_symlink_creates _ dir where_unit "requires" unit (hl1.trans hlink)]
    exact ⟨rfl, _, FS.lookup_insertNew_self _ (linkPath dir where_unit "requires" unit) _⟩
  · intro env fs dir whr target unit where_unit hinst hmnt hfile hlink hne
    rw [growfs_success_run env fs dir whr target unit where_unit hinst hmnt hfile]
    have hl1 : FS.lookup (fs.insertNew (dir ++ "/" ++ unit) (.file ""))
        (linkPath dir where_unit "wants" unit)
        = FS.lookup fs (linkPath dir where_unit "wants" unit) :=
      FS.lookup_insertNew_ne fs _ _ _ hne
    rw [add_symlink_creates _ dir where_unit "wants" unit (hl1.trans hlink)]
    refine ⟨rfl, if path_is_absolute unit then unit else "../" ++ unit, ?_⟩
    by_cases hf : env.flush_ok
    · simp only [Handle.close, hf, if_true]
      rw [FS.lookup_set_ne _ _ _ _ hne]
      exact FS.lookup_insertNew_self _ (linkPath dir where_unit "wants" unit) _
    · simp only [Handle.close, hf, if_false]
      exact FS.lookup_insertNew_self _ (linkPath dir where_unit "wants" unit) _

/-- C9 witness: all three relation statements instantiated on concrete
runs. -/
theorem C9_witness :
    ((generator_hook_up_mkswap env0 [] "/run/w9" "/dev/sde1").2 = 0 ∧
     ∃ d, FS.lookup (generator_hook_up_mkswap env0 [] "/run/w9" "/dev/sde1").1
       (linkPath "/run/w9" "dev-sde1.swap" "requires" "systemd-mkswap@dev-sde1.service")
       = some (.symlink d)) ∧
    ((generator_hook_up_mkfs env0 [] "/run/w9" "/dev/sde2" "/srv" (some "ext4")).2 = 0 ∧
     ∃ d, FS.lookup (generator_hook_up_mkfs env0 [] "/run/w9" "/dev/sde2" "/srv"
         (some "ext4")).1
       (linkPath "/run/w9" "srv.mount" "requires" "systemd-makefs@dev-sde2.service")
       = some (.symlink d)) ∧
    ((generator_hook_up_growfs env0 [] "/run/w9" "/srv" "local-fs.target").2 = 0 ∧
     ∃ d, FS.lookup (generator_hook_up_growfs env0 [] "/run/w9" "/srv" "local-fs.target").1
       (linkPath "/run/w9" "srv.mount" "wants" "systemd-growfs@srv.service")
       = some (.symlink d)) :=
  ⟨C9_relation_asymmetry.1 env0 [] "/run/w9" "/dev/sde1" "/dev/sde1"
      "systemd-mkswap@dev-sde1.service" "dev-sde1.swap" rfl (by decide) rfl rfl (by decide)
      rfl (by decide) (by decide),
   C9_relation_asymmetry.2.1 env0 [] "/run/w9" "/dev/sde2" "/srv" "/dev/sde2" "ext4"
      "systemd-makefs@dev-sde2.service" "srv.mount" rfl (by decide) (by decide) rfl rfl
      (by decide) rfl (by decide) (by decide),
   C9_relation_asymmetry.2.2 env0 [] "/run/w9" "/srv" "local-fs.target"
      "systemd-growfs@srv.service" "srv.mount" rfl rfl (by decide) (by decide) (by decide)⟩

/-! ### Claim C10 -/

/-- C10: when any directory entry already occupies the computed link name,
`generator_add_symlink` returns success and changes nothing, whatever the
entry is — a symlink to a different destination or a regular file alike; the
destination is never verified. -/
theorem C10_add_symlink_existing_entry (fs : FS) (dir dst dep_type src : String)
    (e : Entry) (h : FS.lookup fs (linkPath dir dst dep_type src) = some e) :
    generator_add_symlink fs dir dst dep_type src = (fs, 0) :=
  add_symlink_existing fs dir dst dep_type src e h

/-- C10 witness: the theorem instantiated with a regular file squatting on
the link name. -/
theorem C10_witness :
    generator_add_symlink
      [(linkPath "/run/w10" "m.mount" "requires" "svc.service", Entry.file "junk")]
      "/run/w10" "m.mount" "requires" "svc.service"
      = ([(linkPath "/run/w10" "m.mount" "requires" "svc.service", Entry.file "junk")], 0) :=
  C10_add_symlink_existing_entry
    [(linkPath "/run/w10" "m.mount" "requires" "svc.service", Entry.file "junk")]
    "/run/w10" "m.mount" "requires" "svc.service" (Entry.file "junk") (by decide)

end Generator
